import Mathlib

/-!
Shallow embedding of the Singapore Maritime Dataset ground-truth conversion
scripts (`load_mat_into_csv_xml.py` and `convert_mat_to_csv_LEGACY.py`).

Real-valued bounding-box data is modelled by `ℚ`; Python `int()` coercion is
truncation toward zero (`truncInt`).  Code that can raise an exception
(IndexError on an empty array, KeyError on a missing dictionary entry) is
modelled with `Option`, `none` standing for the raised exception.
-/

/-- Python `int()` on a real value: truncation toward zero. -/
def truncInt (q : ℚ) : ℤ := if q < 0 then ⌈q⌉ else ⌊q⌋

/-- Python `str.strip()`: remove leading and trailing whitespace. -/
def pyStrip (s : String) : String :=
  String.mk (((s.data.dropWhile Char.isWhitespace).reverse.dropWhile Char.isWhitespace).reverse)

/-- Splitting a character list on a separator character; the empty input
yields one empty group, like Python `str.split(sep)`. -/
def splitOnChar (sep : Char) : List Char → List (List Char)
  | [] => [[]]
  | c :: cs =>
    match splitOnChar sep cs with
    | [] => if c = sep then [[], []] else [[c]]
    | g :: gs => if c = sep then [] :: g :: gs else (c :: g) :: gs

/-- Python `s.split(sep)` for a one-character separator. -/
def pySplit (sep : Char) (s : String) : List String :=
  (splitOnChar sep s.data).map String.mk

/-- One row of the per-frame `BB` array: `[x_min, y_min, width, height]`. -/
structure Box where
  x : ℚ
  y : ℚ
  w : ℚ
  h : ℚ
  deriving DecidableEq

/-- One emitted detection-schema row:
`(filename, width, height, class, xmin, ymin, xmax, ymax)`. -/
structure CsvEntry where
  filename : String
  width : ℚ
  height : ℚ
  cls : ℤ
  xmin : ℚ
  ymin : ℚ
  xmax : ℚ
  ymax : ℚ
  deriving DecidableEq

/-- The data stored in one `Frame` object (constructor of class `Frame`). -/
structure Frame where
  frame : ℕ
  image_name : String
  bb : List Box
  objects : List (List ℤ)
  motion : List (List ℚ)
  distance : List (List ℚ)
  image_path : String
  xml_path : String
  deriving DecidableEq

/-- The entry built for object `i` inside `Frame.convert_frame_to_csv`:
in integer mode every bounding-box field is passed through `int()`, the
max corners being truncated after the real-arithmetic sums
`bb[i,0]+bb[i,2]` and `bb[i,1]+bb[i,3]`. -/
def mkEntry (name : String) (b : Box) (c : ℤ) (integer_bb : Bool) : CsvEntry :=
  if integer_bb then
    { filename := name, width := (truncInt b.w : ℚ), height := (truncInt b.h : ℚ),
      cls := c, xmin := (truncInt b.x : ℚ), ymin := (truncInt b.y : ℚ),
      xmax := (truncInt (b.x + b.w) : ℚ), ymax := (truncInt (b.y + b.h) : ℚ) }
  else
    { filename := name, width := b.w, height := b.h, cls := c,
      xmin := b.x, ymin := b.y, xmax := b.x + b.w, ymax := b.y + b.h }

/-- The `for i in range(number_of_objects)` loop of
`Frame.convert_frame_to_csv`: walks `objects` and `bb` in parallel,
reads `objects[i][0]` for every index (IndexError if the inner list is
empty), skips the entry when that class code is `0`, and reads `bb[i]`
only for surviving entries (IndexError if `bb` is exhausted). -/
def convertLoop (name : String) (integer_bb : Bool) :
    List (List ℤ) → List Box → Option (List CsvEntry)
  | [], _ => some []
  | o :: os, bbs =>
    match o.head? with
    | none => none
    | some c =>
      if c ≠ 0 then
        match bbs with
        | [] => none
        | b :: rest =>
          (convertLoop name integer_bb os rest).map
            (fun l => mkEntry name b c integer_bb :: l)
      else
        convertLoop name integer_bb os bbs.tail

/-- `Frame.convert_frame_to_csv`: accesses `self.objects[0]` (IndexError on
an empty outer array), returns the empty list when the first element is
empty (the `len([[]]) -> 1` sanity check), otherwise runs the loop. -/
def convert_frame_to_csv (f : Frame) (integer_bb : Bool) : Option (List CsvEntry) :=
  match f.objects.head? with
  | none => none
  | some o0 =>
    if o0.length > 0 then convertLoop f.image_name integer_bb f.objects f.bb
    else some []

/-- `Frame.get_frame_as_csv` on a freshly constructed `Frame`
(`csv_list_initialized` is `False`): calls `convert_frame_to_csv()` with the
default `integer_bb=False`. -/
def get_frame_as_csv (f : Frame) : Option (List CsvEntry) :=
  convert_frame_to_csv f false

/-- One emitted legacy row:
`(image_name, x_min, y_min, width, height, class, distance, motion)`. -/
structure LegacyEntry where
  image_name : String
  x : ℚ
  y : ℚ
  w : ℚ
  h : ℚ
  cls : ℤ
  dist : ℚ
  mot : ℚ
  deriving DecidableEq

/-- The entry built in `Frame.generate_list_as_csv` of the legacy script:
in integer mode only the four box fields are passed through `int()`,
no corner arithmetic is performed. -/
def mkLegacyEntry (name : String) (b : Box) (c : ℤ) (d m : ℚ)
    (integer_bb : Bool) : LegacyEntry :=
  if integer_bb then
    { image_name := name, x := (truncInt b.x : ℚ), y := (truncInt b.y : ℚ),
      w := (truncInt b.w : ℚ), h := (truncInt b.h : ℚ), cls := c, dist := d, mot := m }
  else
    { image_name := name, x := b.x, y := b.y, w := b.w, h := b.h,
      cls := c, dist := d, mot := m }

/-- The object loop of the legacy `Frame.generate_list_as_csv`: reads
`objects[i][0]` for every index, and `bb[i]`, `distance[i][0]`,
`motion[i][0]` for entries whose class code is nonzero. -/
def legacyLoop (name : String) (integer_bb : Bool) :
    List (List ℤ) → List Box → List (List ℚ) → List (List ℚ) →
    Option (List LegacyEntry)
  | [], _, _, _ => some []
  | o :: os, bbs, ds, ms =>
    match o.head? with
    | none => none
    | some c =>
      if c ≠ 0 then
        match bbs, ds, ms with
        | b :: br, d :: dr, m :: mr =>
          match d.head?, m.head? with
          | some dv, some mv =>
            (legacyLoop name integer_bb os br dr mr).map
              (fun l => mkLegacyEntry name b c dv mv integer_bb :: l)
          | _, _ => none
        | _, _, _ => none
      else
        legacyLoop name integer_bb os bbs.tail ds.tail ms.tail

/-- `Frame.generate_list_as_csv` (legacy script): same outer structure as
`convert_frame_to_csv`, with the legacy row shape. -/
def generate_list_as_csv (f : Frame) (integer_bb : Bool) : Option (List LegacyEntry) :=
  match f.objects.head? with
  | none => none
  | some o0 =>
    if o0.length > 0 then
      legacyLoop f.image_name integer_bb f.objects f.bb f.distance f.motion
    else some []

/-- `Frame.classes_dict`: the fixed 10-entry class vocabulary. -/
def classes_dict : List (ℤ × String) :=
  [(1, "Ferry"), (2, "Buoy"), (3, "Vessel/ship"), (4, "Speed boat"),
   (5, "Boat"), (6, "Kayak"), (7, "Sail boat"), (8, "Swimming person"),
   (9, "Flying bird/plane"), (10, "Other")]

/-- `Frame._convert_class_int_to_string`: the dictionary hit
`self.classes_dict[class_int]`; a missing key raises KeyError (`none`). -/
def convert_class_int_to_string (c : ℤ) : Option String :=
  classes_dict.lookup c

/-- The per-object node of the VOC XML document built by
`Frame._get_xml_for_bbx` (fields in the order the tags are written). -/
structure XmlObject where
  name : String
  xmin : ℚ
  xmax : ℚ
  ymin : ℚ
  ymax : ℚ
  deriving DecidableEq

/-- `Frame._get_xml_for_bbx`: corners computed from the raw box
(`xmax = bb[0] + bb[2]`, `ymax = bb[1] + bb[3]`), then truncated when
`integer_bb`; the class name lookup may raise KeyError. -/
def get_xml_for_bbx (label : ℤ) (b : Box) (integer_bb : Bool) : Option XmlObject :=
  match convert_class_int_to_string label with
  | none => none
  | some n =>
    if integer_bb then
      some { name := n, xmin := (truncInt b.x : ℚ), xmax := (truncInt (b.x + b.w) : ℚ),
             ymin := (truncInt b.y : ℚ), ymax := (truncInt (b.y + b.h) : ℚ) }
    else
      some { name := n, xmin := b.x, xmax := b.x + b.w, ymin := b.y, ymax := b.y + b.h }

/-- The object loop of `Frame.convert_frame_to_VOC_xml`: same skipping
structure as the CSV loop, but each surviving entry goes through
`_get_xml_for_bbx` (whose class lookup may fail). -/
def xmlLoop (integer_bb : Bool) :
    List (List ℤ) → List Box → Option (List XmlObject)
  | [], _ => some []
  | o :: os, bbs =>
    match o.head? with
    | none => none
    | some c =>
      if c ≠ 0 then
        match bbs with
        | [] => none
        | b :: rest =>
          match get_xml_for_bbx c b integer_bb with
          | none => none
          | some xo => (xmlLoop integer_bb os rest).map (fun l => xo :: l)
      else
        xmlLoop integer_bb os bbs.tail

/-- The VOC XML document built by `Frame.convert_frame_to_VOC_xml`,
as a structure (one node per tag written by the string builder). -/
structure XmlDoc where
  folder : String
  filename : String
  path : String
  width : ℕ
  height : ℕ
  depth : ℕ
  objects : List XmlObject
  deriving DecidableEq

/-- `os.path.join` for the paths occurring here (no absolute second part). -/
def joinPath (a b : String) : String :=
  if a = "" then b
  else if a.data.getLast? = some '/' then a ++ b
  else a ++ "/" ++ b

/-- `p.split('/')[-1]`. -/
def lastComponent (p : String) : String :=
  (pySplit '/' p).getLastD ""

/-- `Frame.convert_frame_to_VOC_xml`: fixed metadata (1920x1080x3), folder
and path derived from `image_path`, and the object nodes; accesses
`self.objects[0]` like the CSV conversion. -/
def convert_frame_to_VOC_xml (f : Frame) (integer_bb : Bool) : Option XmlDoc :=
  match f.objects.head? with
  | none => none
  | some o0 =>
    match (if o0.length > 0 then xmlLoop integer_bb f.objects f.bb else some []) with
    | none => none
    | some objs =>
      some { folder := lastComponent f.image_path, filename := f.image_name,
             path := joinPath f.image_path f.image_name,
             width := 1920, height := 1080, depth := 3, objects := objs }

/-- Outcome of `Frame.save_frame_as_xml`: either skipped with a printed
diagnostic, or the document written to the given path. -/
inductive SaveResult where
  | skipped (diagnostic : String) : SaveResult
  | saved (path : String) (doc : XmlDoc) : SaveResult
  deriving DecidableEq

/-- `Frame.save_frame_as_xml`: skips (with a diagnostic) when the stripped
image path or xml path is empty; otherwise generates the XML with the
default `integer_bb=False` and writes it to
`os.path.join(xml_path, image_name.split('.')[0] + '.xml')`.
`none` models an exception escaping from the XML generation. -/
def save_frame_as_xml (f : Frame) : Option SaveResult :=
  if pyStrip f.image_path = "" then
    some (SaveResult.skipped "There was no valid path set for the image. Skipping xml generation.")
  else if pyStrip f.xml_path = "" then
    some (SaveResult.skipped "There was no valid path set for the xml. Skipping xml generation.")
  else
    match convert_frame_to_VOC_xml f false with
    | none => none
    | some doc =>
      some (SaveResult.saved
        (joinPath f.xml_path (((pySplit '.' f.image_name).headD "") ++ ".xml")) doc)

/-- The per-frame struct of one loaded container:
`gt['structXML'][0]` entry `i` with its four parallel arrays. -/
structure FrameData where
  BB : List Box
  Object : List (List ℤ)
  Motion : List (List ℚ)
  Distance : List (List ℚ)
  deriving DecidableEq

/-- `<video_id>_frame<i>.jpg`. -/
def mkImageName (vid : String) (i : ℕ) : String :=
  vid ++ "_frame" ++ toString i ++ ".jpg"

/-- The `Frame(...)` constructor call inside the orchestrator loop. -/
def mkFrame (vid : String) (i : ℕ) (fd : FrameData) (ip xp : String) : Frame :=
  { frame := i, image_name := mkImageName vid i, bb := fd.BB, objects := fd.Object,
    motion := fd.Motion, distance := fd.Distance, image_path := ip, xml_path := xp }

/-- The `for i in range(frames_number)` loop of
`generate_split_dataset_csv_xml`: routes each image to the train bucket
(`if image_name in train_frames`), else to the test bucket
(`elif image_name in test_frames`), else skips it without touching the
frame data.  For a routed frame, `frame.get_frame_as_csv()` (which uses
the default `integer_bb=False`) produces the rows and
`frame.save_frame_as_xml()` is invoked; an exception in either aborts
the whole run (`none`). -/
def processFrames (vid ip_tr ip_te xp_tr xp_te : String)
    (train test : List String) :
    List FrameData → ℕ → Option (List CsvEntry × List CsvEntry)
  | [], _ => some ([], [])
  | fd :: rest, i =>
    if mkImageName vid i ∈ train then
      match get_frame_as_csv (mkFrame vid i fd ip_tr xp_tr) with
      | none => none
      | some rows =>
        match save_frame_as_xml (mkFrame vid i fd ip_tr xp_tr) with
        | none => none
        | some _ =>
          match processFrames vid ip_tr ip_te xp_tr xp_te train test rest (i + 1) with
          | none => none
          | some (tr, te) => some (rows ++ tr, te)
    else if mkImageName vid i ∈ test then
      match get_frame_as_csv (mkFrame vid i fd ip_te xp_te) with
      | none => none
      | some rows =>
        match save_frame_as_xml (mkFrame vid i fd ip_te xp_te) with
        | none => none
        | some _ =>
          match processFrames vid ip_tr ip_te xp_tr xp_te train test rest (i + 1) with
          | none => none
          | some (tr, te) => some (tr, rows ++ te)
    else
      processFrames vid ip_tr ip_te xp_tr xp_te train test rest (i + 1)

/-- `generate_split_dataset_csv_xml`: iterates the located containers in
order; `loadmat(...)['structXML']` on a malformed container raises KeyError
(modelled by a `none` container), which propagates and aborts the run.
Note that the `integer_bb` parameter is accepted but never used in the
body: the rows come from `frame.get_frame_as_csv()` on a fresh `Frame`,
which falls back to the default `integer_bb=False`. -/
def generate_split_dataset_csv_xml :
    List (String × Option (List FrameData)) →
    String → String → String → String →
    List String → List String → Bool →
    Option (List CsvEntry × List CsvEntry)
  | [], _, _, _, _, _, _, _ => some ([], [])
  | (_, none) :: _, _, _, _, _, _, _, _ => none
  | (vid, some cont) :: rest, ip_tr, ip_te, xp_tr, xp_te, train, test, integer_bb =>
    match processFrames vid ip_tr ip_te xp_tr xp_te train test cont 0 with
    | none => none
    | some (tr1, te1) =>
      match generate_split_dataset_csv_xml rest ip_tr ip_te xp_tr xp_te train test integer_bb with
      | none => none
      | some (tr2, te2) => some (tr1 ++ tr2, te1 ++ te2)

/-- Specification-level normalizer, written from the words of §4.3 and
§4.2 of the spec: a frame whose object array has an empty first element
yields no entries; otherwise index `i` is skipped exactly when
`class_code[i] = 0` and surviving entries are emitted in input index
order. -/
def normalizeSpec (f : Frame) (integer_bb : Bool) : List CsvEntry :=
  match f.objects.head? with
  | none => []
  | some o0 =>
    if o0.length > 0 then
      (f.objects.zip f.bb).filterMap (fun p =>
        match p.1.head? with
        | some c => if c ≠ 0 then some (mkEntry f.image_name p.2 c integer_bb) else none
        | none => none)
    else []

/-- Concrete frame with the box `(10.7, 20.2, 5.4, 5.9)` of spec Scenario 2. -/
def frameC1 : Frame :=
  { frame := 0, image_name := "MVI_1613_VIS_frame0.jpg",
    bb := [{ x := 10.7, y := 20.2, w := 5.4, h := 5.9 }],
    objects := [[3]], motion := [[1]], distance := [[0]],
    image_path := "", xml_path := "" }

/-- The integer-mode row emitted for `frameC1`. -/
def entryC1int : CsvEntry :=
  { filename := "MVI_1613_VIS_frame0.jpg", width := 5, height := 5, cls := 3,
    xmin := 10, ymin := 20, xmax := 16, ymax := 26 }

/-- The real-mode row emitted for `frameC1`. -/
def entryC1real : CsvEntry :=
  { filename := "MVI_1613_VIS_frame0.jpg", width := 5.4, height := 5.9, cls := 3,
    xmin := 10.7, ymin := 20.2, xmax := 16.1, ymax := 26.1 }

/-- Same frame content as `frameC1`, kept separate for Scenario 2. -/
def frameC2 : Frame :=
  { frame := 0, image_name := "MVI_1613_VIS_frame0.jpg",
    bb := [{ x := 10.7, y := 20.2, w := 5.4, h := 5.9 }],
    objects := [[3]], motion := [[1]], distance := [[0]],
    image_path := "", xml_path := "" }

/-- The integer-mode row emitted for `frameC2`. -/
def entryC2 : CsvEntry :=
  { filename := "MVI_1613_VIS_frame0.jpg", width := 5, height := 5, cls := 3,
    xmin := 10, ymin := 20, xmax := 16, ymax := 26 }

/-- A frame whose object array is empty at the outer level. -/
def frameC3empty : Frame :=
  { frame := 0, image_name := "V0_frame0.jpg", bb := [],
    objects := [], motion := [], distance := [],
    image_path := "", xml_path := "" }

/-- A frame with the degenerate zero-object encoding: the object array is
nonempty but its first element is empty (`len([[]]) -> 1`). -/
def frameC3deg : Frame :=
  { frame := 0, image_name := "V0_frame1.jpg",
    bb := [{ x := 1, y := 1, w := 1, h := 1 }, { x := 2, y := 2, w := 2, h := 2 }],
    objects := [[], [7]], motion := [[0], [0]], distance := [[0], [0]],
    image_path := "", xml_path := "" }

/-- Scenario 1 frame: one class-3 object and one sentinel class-0 entry. -/
def frameC4 : Frame :=
  { frame := 0, image_name := "V1_frame0.jpg",
    bb := [{ x := 10, y := 20, w := 5, h := 5 }, { x := 1, y := 1, w := 1, h := 1 }],
    objects := [[3], [0]], motion := [[1], [0]], distance := [[0], [0]],
    image_path := "", xml_path := "" }

/-- The single row emitted for `frameC4`. -/
def entryC4 : CsvEntry :=
  { filename := "V1_frame0.jpg", width := 5, height := 5, cls := 3,
    xmin := 10, ymin := 20, xmax := 15, ymax := 25 }

/-- A well-formed one-frame container for video `B`. -/
def contC5 : List FrameData :=
  [{ BB := [{ x := 10, y := 20, w := 5, h := 5 }], Object := [[3]],
     Motion := [[1]], Distance := [[2]] }]

/-- The row emitted for the only frame of `contC5`. -/
def entryC5 : CsvEntry :=
  { filename := "B_frame0.jpg", width := 5, height := 5, cls := 3,
    xmin := 10, ymin := 20, xmax := 15, ymax := 25 }

/-- A frame struct with fractional box coordinates for video `MVI`. -/
def fdC6 : FrameData :=
  { BB := [{ x := 10.7, y := 20.2, w := 5.4, h := 5.9 }], Object := [[3]],
    Motion := [[1]], Distance := [[0]] }

/-- The row the orchestrator emits for `fdC6` even when `integer_bb` is
requested: all four bounding-box fields are still real-valued. -/
def entryC6 : CsvEntry :=
  { filename := "MVI_frame0.jpg", width := 5.4, height := 5.9, cls := 3,
    xmin := 10.7, ymin := 20.2, xmax := 16.1, ymax := 26.1 }

/-- A frame with nonblank image and annotation paths. -/
def frameC8 : Frame :=
  { frame := 0, image_name := "V_frame0.jpg",
    bb := [{ x := 10, y := 20, w := 5, h := 5 }],
    objects := [[3]], motion := [[1]], distance := [[0]],
    image_path := "img", xml_path := "ann" }

/-- The VOC document generated for `frameC8`. -/
def docC8 : XmlDoc :=
  { folder := "img", filename := "V_frame0.jpg", path := "img/V_frame0.jpg",
    width := 1920, height := 1080, depth := 3,
    objects := [{ name := "Vessel/ship", xmin := 10, xmax := 15, ymin := 20, ymax := 25 }] }

theorem mkEntry_filename (name : String) (b : Box) (c : ℤ) (ib : Bool) :
    (mkEntry name b c ib).filename = name := by
  cases ib <;> simp [mkEntry]

theorem mkEntry_cls (name : String) (b : Box) (c : ℤ) (ib : Bool) :
    (mkEntry name b c ib).cls = c := by
  cases ib <;> simp [mkEntry]

theorem convertLoop_mem {name : String} {ib : Bool} {os : List (List ℤ)} :
    ∀ {bbs : List Box} {l : List CsvEntry} {e : CsvEntry},
      convertLoop name ib os bbs = some l → e ∈ l →
      ∃ c b, c ≠ 0 ∧ b ∈ bbs ∧ e = mkEntry name b c ib := by
  induction os with
  | nil =>
    intro bbs l e h he
    simp only [convertLoop, Option.some.injEq] at h
    subst h
    simp at he
  | cons o os ih =>
    intro bbs l e h he
    simp only [convertLoop] at h
    split at h
    · exact absurd h (by simp)
    · rename_i c hho
      split at h
      · rename_i hc
        split at h
        · exact absurd h (by simp)
        · rename_i b rest
          cases hrec : convertLoop name ib os rest <;> rw [hrec] at h
          · exact absurd h (by simp)
          · rename_i l2
            simp only [Option.map_some', Option.some.injEq] at h
            subst h
            rcases List.mem_cons.mp he with rfl | h2
            · exact ⟨c, b, hc, List.mem_cons_self b rest, rfl⟩
            · obtain ⟨c2, b2, hc2, hb2, he2⟩ := ih hrec h2
              exact ⟨c2, b2, hc2, List.mem_cons_of_mem b hb2, he2⟩
      · obtain ⟨c2, b, hc2, hb, he2⟩ := ih h he
        exact ⟨c2, b, hc2, List.mem_of_mem_tail hb, he2⟩

theorem convert_mem {f : Frame} {ib : Bool} {l : List CsvEntry} {e : CsvEntry}
    (h : convert_frame_to_csv f ib = some l) (he : e ∈ l) :
    ∃ c b, c ≠ 0 ∧ b ∈ f.bb ∧ e = mkEntry f.image_name b c ib := by
  unfold convert_frame_to_csv at h
  split at h
  · exact absurd h (by simp)
  · rename_i o0 hho
    split at h
    · exact convertLoop_mem h he
    · simp only [Option.some.injEq] at h
      subst h
      simp at he

theorem convert_filename {f : Frame} {ib : Bool} {l : List CsvEntry}
    (h : convert_frame_to_csv f ib = some l) :
    ∀ e ∈ l, e.filename = f.image_name := by
  intro e he
  obtain ⟨c, b, _, _, rfl⟩ := convert_mem h he
  exact mkEntry_filename f.image_name b c ib

theorem convert_cls_ne_zero {f : Frame} {ib : Bool} {l : List CsvEntry}
    (h : convert_frame_to_csv f ib = some l) :
    ∀ e ∈ l, e.cls ≠ 0 := by
  intro e he
  obtain ⟨c, b, hc, _, rfl⟩ := convert_mem h he
  rw [mkEntry_cls]
  exact hc

theorem convertLoop_eq_filterMap {name : String} {ib : Bool} {os : List (List ℤ)} :
    ∀ {bbs : List Box} {l : List CsvEntry},
      convertLoop name ib os bbs = some l →
      l = (os.zip bbs).filterMap (fun p =>
        match p.1.head? with
        | some c => if c ≠ 0 then some (mkEntry name p.2 c ib) else none
        | none => none) := by
  induction os with
  | nil =>
    intro bbs l h
    simp only [convertLoop, Option.some.injEq] at h
    subst h
    simp
  | cons o os ih =>
    intro bbs l h
    simp only [convertLoop] at h
    split at h
    · exact absurd h (by simp)
    · rename_i c hho
      split at h
      · rename_i hc
        split at h
        · exact absurd h (by simp)
        · rename_i b rest
          cases hrec : convertLoop name ib os rest <;> rw [hrec] at h
          · exact absurd h (by simp)
          · rename_i l2
            simp only [Option.map_some', Option.some.injEq] at h
            subst h
            simp only [List.zip_cons_cons, List.filterMap_cons, hho, if_pos hc]
            rw [ih hrec]
      · rename_i hc
        cases bbs with
        | nil =>
          have := ih h
          simpa using this
        | cons b rest =>
          have := ih h
          simp only [List.tail_cons] at this
          simp only [List.zip_cons_cons, List.filterMap_cons, hho, if_neg hc]
          exact this

theorem convert_eq_normalizeSpec {f : Frame} {ib : Bool} {l : List CsvEntry}
    (h : convert_frame_to_csv f ib = some l) : l = normalizeSpec f ib := by
  unfold convert_frame_to_csv at h
  unfold normalizeSpec
  split at h
  · exact absurd h (by simp)
  · rename_i o0 hho
    split at h
    · rename_i h0
      rw [if_pos (by simpa using h0)]
      exact convertLoop_eq_filterMap h
    · rename_i h0
      rw [if_neg (by simpa using h0)]
      simp only [Option.some.injEq] at h
      exact h.symm

theorem truncInt_of_nonneg {q : ℚ} (h : 0 ≤ q) : truncInt q = ⌊q⌋ := by
  simp [truncInt, not_lt.mpr h]

theorem add_floor_le_floor_add (a b : ℚ) : ⌊a⌋ + ⌊b⌋ ≤ ⌊a + b⌋ := by
  apply Int.le_floor.mpr
  push_cast
  exact add_le_add (Int.floor_le a) (Int.floor_le b)

theorem floor_add_le_add_floor_succ (a b : ℚ) : ⌊a + b⌋ ≤ ⌊a⌋ + ⌊b⌋ + 1 := by
  have h : a + b < ((⌊a⌋ + ⌊b⌋ + 2 : ℤ) : ℚ) := by
    push_cast
    linarith [Int.lt_floor_add_one a, Int.lt_floor_add_one b]
  have h2 := Int.floor_lt.mpr h
  omega

theorem processFrames_mem {vid p1 p2 p3 p4 : String} {train test : List String} :
    ∀ {cont : List FrameData} {i : ℕ} {tr te : List CsvEntry},
      processFrames vid p1 p2 p3 p4 train test cont i = some (tr, te) →
      (∀ e ∈ tr, e.filename ∈ train) ∧
      (∀ e ∈ te, e.filename ∈ test ∧ e.filename ∉ train) := by
  intro cont
  induction cont with
  | nil =>
    intro i tr te h
    simp only [processFrames, Option.some.injEq, Prod.mk.injEq] at h
    obtain ⟨rfl, rfl⟩ := h
    simp
  | cons fd rest ih =>
    intro i tr te h
    simp only [processFrames] at h
    split at h
    · rename_i htr
      split at h
      · exact absurd h (by simp)
      · rename_i rows hrows
        split at h
        · exact absurd h (by simp)
        · rename_i sv hsv
          split at h
          · exact absurd h (by simp)
          · rename_i tr2 te2 hrec
            simp only [Option.some.injEq, Prod.mk.injEq] at h
            obtain ⟨h1, h2⟩ := h
            subst h1
            subst h2
            obtain ⟨ih1, ih2⟩ := ih hrec
            refine ⟨?_, ih2⟩
            intro e he
            rcases List.mem_append.mp he with hm | hm
            · unfold get_frame_as_csv at hrows
              have hf := convert_filename hrows e hm
              rw [hf]
              exact htr
            · exact ih1 e hm
    · rename_i htr
      split at h
      · rename_i hte
        split at h
        · exact absurd h (by simp)
        · rename_i rows hrows
          split at h
          · exact absurd h (by simp)
          · rename_i sv hsv
            split at h
            · exact absurd h (by simp)
            · rename_i tr2 te2 hrec
              simp only [Option.some.injEq, Prod.mk.injEq] at h
              obtain ⟨h1, h2⟩ := h
              subst h1
              subst h2
              obtain ⟨ih1, ih2⟩ := ih hrec
              refine ⟨ih1, ?_⟩
              intro e he
              rcases List.mem_append.mp he with hm | hm
              · unfold get_frame_as_csv at hrows
                have hf := convert_filename hrows e hm
                rw [hf]
                exact ⟨hte, htr⟩
              · exact ih2 e hm
      · exact ih h

theorem gen_mem {p1 p2 p3 p4 : String} {train test : List String} {ib : Bool} :
    ∀ {gtFiles : List (String × Option (List FrameData))} {tr te : List CsvEntry},
      generate_split_dataset_csv_xml gtFiles p1 p2 p3 p4 train test ib = some (tr, te) →
      (∀ e ∈ tr, e.filename ∈ train) ∧
      (∀ e ∈ te, e.filename ∈ test ∧ e.filename ∉ train) := by
  intro gtFiles
  induction gtFiles with
  | nil =>
    intro tr te h
    simp only [generate_split_dataset_csv_xml, Option.some.injEq, Prod.mk.injEq] at h
    obtain ⟨rfl, rfl⟩ := h
    simp
  | cons kv rest ih =>
    obtain ⟨vid, c⟩ := kv
    cases c with
    | none =>
      intro tr te h
      exact absurd h (by simp [generate_split_dataset_csv_xml])
    | some cont =>
      intro tr te h
      simp only [generate_split_dataset_csv_xml] at h
      split at h
      · exact absurd h (by simp)
      · rename_i tr1 te1 hpf
        split at h
        · exact absurd h (by simp)
        · rename_i tr2 te2 hrec
          simp only [Option.some.injEq, Prod.mk.injEq] at h
          obtain ⟨h1, h2⟩ := h
          subst h1
          subst h2
          obtain ⟨pf1, pf2⟩ := processFrames_mem hpf
          obtain ⟨ih1, ih2⟩ := ih hrec
          constructor
          · intro e he
            rcases List.mem_append.mp he with hm | hm
            · exact pf1 e hm
            · exact ih1 e hm
          · intro e he
            rcases List.mem_append.mp he with hm | hm
            · exact pf2 e hm
            · exact ih2 e hm

theorem processFrames_unmatched {vid p1 p2 p3 p4 : String} {train test : List String}
    (h1 : ∀ j, mkImageName vid j ∉ train) (h2 : ∀ j, mkImageName vid j ∉ test) :
    ∀ (cont : List FrameData) (i : ℕ),
      processFrames vid p1 p2 p3 p4 train test cont i = some ([], []) := by
  intro cont
  induction cont with
  | nil => intro i; rfl
  | cons fd rest ih =>
    intro i
    simp only [processFrames, if_neg (h1 i), if_neg (h2 i)]
    exact ih (i + 1)

theorem gen_malformed {p1 p2 p3 p4 : String} {train test : List String} {ib : Bool}
    {vid : String} :
    ∀ {gtFiles : List (String × Option (List FrameData))},
      (vid, (none : Option (List FrameData))) ∈ gtFiles →
      generate_split_dataset_csv_xml gtFiles p1 p2 p3 p4 train test ib = none := by
  intro gtFiles
  induction gtFiles with
  | nil => intro h; simp at h
  | cons kv rest ih =>
    intro h
    obtain ⟨v, c⟩ := kv
    rcases List.mem_cons.mp h with heq | hmem
    · obtain ⟨rfl, rfl⟩ := Prod.mk.injEq .. ▸ heq
      rfl
    · cases c with
      | none => rfl
      | some cont =>
        simp only [generate_split_dataset_csv_xml]
        split
        · rfl
        · rw [ih hmem]

theorem frameC1_eval_false :
    convert_frame_to_csv frameC1 false = some [entryC1real] := by
  simp only [convert_frame_to_csv, frameC1, entryC1real, convertLoop, mkEntry, truncInt,
    List.head?, List.length, List.tail]
  norm_num

theorem frameC1_eval_true :
    convert_frame_to_csv frameC1 true = some [entryC1int] := by
  simp only [convert_frame_to_csv, frameC1, entryC1int, convertLoop, mkEntry, truncInt,
    List.head?, List.length, List.tail]
  norm_num

theorem frameC2_eval :
    convert_frame_to_csv frameC2 true = some [entryC2] := by
  simp only [convert_frame_to_csv, frameC2, entryC2, convertLoop, mkEntry, truncInt,
    List.head?, List.length, List.tail]
  norm_num

theorem frameC4_eval :
    convert_frame_to_csv frameC4 false = some [entryC4] := by
  simp only [convert_frame_to_csv, frameC4, entryC4, convertLoop, mkEntry, truncInt,
    List.head?, List.length, List.tail]
  norm_num

theorem genC5_eval :
    generate_split_dataset_csv_xml [("B", some contC5)] "" "" "" "" ["B_frame0.jpg"] [] false
      = some ([entryC5], []) := by
  simp only [generate_split_dataset_csv_xml, processFrames, contC5, entryC5, mkImageName,
    mkFrame, get_frame_as_csv, convert_frame_to_csv, convertLoop, mkEntry,
    save_frame_as_xml, convert_frame_to_VOC_xml, xmlLoop, get_xml_for_bbx,
    convert_class_int_to_string, classes_dict, List.lookup,
    List.head?, List.length, List.tail]
  norm_num
  rfl

theorem genC5_eval_both :
    generate_split_dataset_csv_xml [("B", some contC5)] "" "" "" ""
      ["B_frame0.jpg"] ["B_frame0.jpg"] false = some ([entryC5], []) := by
  simp only [generate_split_dataset_csv_xml, processFrames, contC5, entryC5, mkImageName,
    mkFrame, get_frame_as_csv, convert_frame_to_csv, convertLoop, mkEntry,
    save_frame_as_xml, convert_frame_to_VOC_xml, xmlLoop, get_xml_for_bbx,
    convert_class_int_to_string, classes_dict, List.lookup,
    List.head?, List.length, List.tail]
  norm_num
  rfl

theorem genC5_eval_test :
    generate_split_dataset_csv_xml [("B", some contC5)] "" "" "" ""
      ["Z"] ["B_frame0.jpg"] false = some ([], [entryC5]) := by
  simp only [generate_split_dataset_csv_xml, processFrames, contC5, entryC5, mkImageName,
    mkFrame, get_frame_as_csv, convert_frame_to_csv, convertLoop, mkEntry,
    save_frame_as_xml, convert_frame_to_VOC_xml, xmlLoop, get_xml_for_bbx,
    convert_class_int_to_string, classes_dict, List.lookup,
    List.head?, List.length, List.tail]
  norm_num
  rfl

theorem genC6_eval :
    generate_split_dataset_csv_xml [("MVI", some [fdC6])] "" "" "" ""
      ["MVI_frame0.jpg"] [] true = some ([entryC6], []) := by
  simp only [generate_split_dataset_csv_xml, processFrames, fdC6, entryC6, mkImageName,
    mkFrame, get_frame_as_csv, convert_frame_to_csv, convertLoop, mkEntry,
    save_frame_as_xml, convert_frame_to_VOC_xml, xmlLoop, get_xml_for_bbx,
    convert_class_int_to_string, classes_dict, List.lookup,
    List.head?, List.length, List.tail]
  norm_num
  rfl

theorem frameC8_voc_eval :
    convert_frame_to_VOC_xml frameC8 false = some docC8 := by
  simp only [convert_frame_to_VOC_xml, frameC8, docC8, xmlLoop, get_xml_for_bbx,
    convert_class_int_to_string, classes_dict, List.lookup, joinPath, lastComponent,
    pySplit, splitOnChar, List.head?, List.length, List.tail]
  norm_num
  rfl

/-- C1 counterexample: for the box `(10.7, 20.2, 5.4, 5.9)` in integer mode
the emitted truncated fields satisfy `xmax - xmin = 6` but `width = 5`, so
the corner round-trip equality fails over the truncated values. -/
theorem c1_counterexample :
    convert_frame_to_csv frameC1 true = some [entryC1int] ∧
    entryC1int.xmax - entryC1int.xmin ≠ entryC1int.width := by
  refine ⟨frameC1_eval_true, ?_⟩
  simp only [entryC1int]
  norm_num

/-- C1 (amended): for every emitted detection-schema row the corner
round-trip `xmax - xmin = width` and `ymax - ymin = height` holds exactly
in real mode; in integer mode (with nonnegative box data) the truncated
fields satisfy it only up to a carry of one:
`xmin + width ≤ xmax ≤ xmin + width + 1`, and likewise for `y`. -/
theorem c1_corner_roundtrip (f : Frame) (l : List CsvEntry) (e : CsvEntry) :
    (convert_frame_to_csv f false = some l → e ∈ l →
      e.xmax - e.xmin = e.width ∧ e.ymax - e.ymin = e.height) ∧
    (convert_frame_to_csv f true = some l → e ∈ l →
      (∀ b ∈ f.bb, 0 ≤ b.x ∧ 0 ≤ b.y ∧ 0 ≤ b.w ∧ 0 ≤ b.h) →
      e.xmin + e.width ≤ e.xmax ∧ e.xmax ≤ e.xmin + e.width + 1 ∧
      e.ymin + e.height ≤ e.ymax ∧ e.ymax ≤ e.ymin + e.height + 1) := by
  constructor
  · intro h he
    obtain ⟨c, b, hc, hb, rfl⟩ := convert_mem h he
    simp only [mkEntry, Bool.false_eq_true, if_false]
    constructor <;> ring
  · intro h he hpos
    obtain ⟨c, b, hc, hb, rfl⟩ := convert_mem h he
    obtain ⟨hx, hy, hw, hh⟩ := hpos b hb
    simp only [mkEntry, if_true]
    rw [truncInt_of_nonneg hx, truncInt_of_nonneg hy, truncInt_of_nonneg hw,
      truncInt_of_nonneg hh, truncInt_of_nonneg (add_nonneg hx hw),
      truncInt_of_nonneg (add_nonneg hy hh)]
    refine ⟨?_, ?_, ?_, ?_⟩
    · exact_mod_cast add_floor_le_floor_add b.x b.w
    · exact_mod_cast floor_add_le_add_floor_succ b.x b.w
    · exact_mod_cast add_floor_le_floor_add b.y b.h
    · exact_mod_cast floor_add_le_add_floor_succ b.y b.h

/-- C1 witness: the amended round-trip at the concrete frame `frameC1`,
in real mode (exact) and in integer mode (carry bounds). -/
theorem c1_corner_roundtrip_witness :
    (entryC1real.xmax - entryC1real.xmin = entryC1real.width ∧
     entryC1real.ymax - entryC1real.ymin = entryC1real.height) ∧
    (entryC1int.xmin + entryC1int.width ≤ entryC1int.xmax ∧
     entryC1int.xmax ≤ entryC1int.xmin + entryC1int.width + 1 ∧
     entryC1int.ymin + entryC1int.height ≤ entryC1int.ymax ∧
     entryC1int.ymax ≤ entryC1int.ymin + entryC1int.height + 1) := by
  constructor
  · exact (c1_corner_roundtrip frameC1 [entryC1real] entryC1real).1
      frameC1_eval_false (by simp)
  · exact (c1_corner_roundtrip frameC1 [entryC1int] entryC1int).2
      frameC1_eval_true (by simp)
      (by intro b hb; simp only [frameC1, List.mem_singleton] at hb; subst hb; norm_num)

/-- C2: in integer mode each of x_min, y_min, width, height is truncated
toward zero individually and each max corner is the truncation of the
real-arithmetic sum; for the box `(10.7, 20.2, 5.4, 5.9)` the emitted
integer fields are `(10, 20, 5, 5)` and `xmax = int(10.7+5.4) = 16`,
not `10 + 5 = 15`. -/
theorem c2_integer_truncation :
    (∀ (f : Frame) (l : List CsvEntry) (e : CsvEntry),
      convert_frame_to_csv f true = some l → e ∈ l →
      ∃ c b, c ≠ 0 ∧ b ∈ f.bb ∧
        e = { filename := f.image_name, width := (truncInt b.w : ℚ),
              height := (truncInt b.h : ℚ), cls := c,
              xmin := (truncInt b.x : ℚ), ymin := (truncInt b.y : ℚ),
              xmax := (truncInt (b.x + b.w) : ℚ),
              ymax := (truncInt (b.y + b.h) : ℚ) }) ∧
    (convert_frame_to_csv frameC2 true = some [entryC2] ∧
     truncInt ((10.7 : ℚ) + 5.4) = 16 ∧
     truncInt (10.7 : ℚ) + truncInt (5.4 : ℚ) = 15) := by
  refine ⟨?_, frameC2_eval, ?_, ?_⟩
  · intro f l e h he
    obtain ⟨c, b, hc, hb, rfl⟩ := convert_mem h he
    exact ⟨c, b, hc, hb, by simp only [mkEntry, if_true]⟩
  · norm_num [truncInt]
  · norm_num [truncInt]

/-- C2 witness: the general integer-mode row shape instantiated at the
concrete frame `frameC2`. -/
theorem c2_integer_truncation_witness :
    ∃ c b, c ≠ 0 ∧ b ∈ frameC2.bb ∧
      entryC2 = { filename := frameC2.image_name, width := (truncInt b.w : ℚ),
                  height := (truncInt b.h : ℚ), cls := c,
                  xmin := (truncInt b.x : ℚ), ymin := (truncInt b.y : ℚ),
                  xmax := (truncInt (b.x + b.w) : ℚ),
                  ymax := (truncInt (b.y + b.h) : ℚ) } :=
  c2_integer_truncation.1 frameC2 [entryC2] entryC2 frameC2_eval (by simp)

/-- C3 counterexample: on a frame whose object array is empty at the outer
level, both normalizers raise an indexing error (modelled `none`) instead
of returning an empty sequence. -/
theorem c3_counterexample :
    convert_frame_to_csv frameC3empty false = none ∧
    generate_list_as_csv frameC3empty false = none :=
  ⟨rfl, rfl⟩

/-- C3 (amended): for every frame record whose object array is nonempty
but has an empty first element (the degenerate zero-object encoding),
normalization returns the empty sequence without error and without a
spurious entry, in both scripts; the outer-empty case instead raises an
indexing error. -/
theorem c3_zero_objects (f : Frame) (ib : Bool) :
    f.objects.head? = some [] →
    convert_frame_to_csv f ib = some [] ∧ generate_list_as_csv f ib = some [] := by
  intro h
  constructor <;> simp [convert_frame_to_csv, generate_list_as_csv, h]

/-- C3 witness: the degenerate encoding `[[], [7]]` yields the empty row
list in both scripts. -/
theorem c3_zero_objects_witness :
    convert_frame_to_csv frameC3deg false = some [] ∧
    generate_list_as_csv frameC3deg false = some [] :=
  c3_zero_objects frameC3deg false rfl

/-- C4: whenever normalization succeeds, every emitted entry has a nonzero
class code, and the output is exactly the index-ordered filtering of the
record that skips an index precisely when its class code is the sentinel 0
(`normalizeSpec`, written from the words of the spec). -/
theorem c4_sentinel_filter (f : Frame) (ib : Bool) (l : List CsvEntry) :
    convert_frame_to_csv f ib = some l →
    (∀ e ∈ l, e.cls ≠ 0) ∧ l = normalizeSpec f ib := by
  intro h
  exact ⟨convert_cls_ne_zero h, convert_eq_normalizeSpec h⟩

/-- C4 witness: Scenario 1 frame; the class-3 entry survives with nonzero
class code and the output equals the specification-level normalizer. -/
theorem c4_sentinel_filter_witness :
    entryC4.cls ≠ 0 ∧ [entryC4] = normalizeSpec frameC4 false := by
  have h := c4_sentinel_filter frameC4 false [entryC4] frameC4_eval
  exact ⟨h.1 entryC4 (by simp), h.2⟩

/-- C5 counterexample: with a malformed container first in the directory,
the whole run returns nothing — the healthy container `B` (which alone
yields one train row) contributes nothing, contradicting the claimed
failure isolation. -/
theorem c5_counterexample :
    generate_split_dataset_csv_xml [("A", none), ("B", some contC5)] "" "" "" ""
      ["B_frame0.jpg"] [] false = none ∧
    generate_split_dataset_csv_xml [("B", some contC5)] "" "" "" ""
      ["B_frame0.jpg"] [] false = some ([entryC5], []) :=
  ⟨rfl, genC5_eval⟩

/-- C5 (amended): a malformed container (missing `structXML` key, the
KeyError modelled by a `none` container) anywhere in the located set makes
the whole orchestrator run fail: the error propagates, no outputs are
returned and the remaining containers are not processed. -/
theorem c5_malformed_aborts (gtFiles : List (String × Option (List FrameData)))
    (p1 p2 p3 p4 : String) (train test : List String) (ib : Bool) (vid : String) :
    (vid, (none : Option (List FrameData))) ∈ gtFiles →
    generate_split_dataset_csv_xml gtFiles p1 p2 p3 p4 train test ib = none :=
  fun h => gen_malformed h

/-- C5 witness: the two-container run with the malformed `A` aborts. -/
theorem c5_malformed_aborts_witness :
    generate_split_dataset_csv_xml [("A", none), ("B", some contC5)] "" "" "" ""
      ["B_frame0.jpg"] [] false = none :=
  c5_malformed_aborts [("A", none), ("B", some contC5)] "" "" "" ""
    ["B_frame0.jpg"] [] false "A" (by simp)

/-- C6 (code bug): the orchestrator accepts `integer_bb` but never forwards
it — rows come from `get_frame_as_csv()` on a fresh frame, which falls back
to the default `integer_bb=False` — so a run requesting integer mode still
emits real-valued bounding-box fields: with box `(10.7, 20.2, 5.4, 5.9)`
the emitted `xmin` is `10.7`, not the truncation `10`. -/
theorem c6_integer_bb_ignored :
    generate_split_dataset_csv_xml [("MVI", some [fdC6])] "" "" "" ""
      ["MVI_frame0.jpg"] [] true = some ([entryC6], []) ∧
    entryC6.xmin = (10.7 : ℚ) ∧
    entryC6.xmin ≠ ((truncInt entryC6.xmin : ℤ) : ℚ) := by
  refine ⟨genC6_eval, rfl, ?_⟩
  simp only [entryC6]
  norm_num [truncInt]

/-- C7: the class-name resolution of the structured-annotation emitter
succeeds exactly for class codes in `[1, 10]` and returns the fixed
vocabulary names; class code 11 reaching the per-object emitter fails
(KeyError, modelled `none`). -/
theorem c7_class_vocabulary :
    (∀ (b : Box) (ib : Bool), get_xml_for_bbx 11 b ib = none) ∧
    (∀ c : ℤ, (convert_class_int_to_string c).isSome ↔ 1 ≤ c ∧ c ≤ 10) ∧
    convert_class_int_to_string 1 = some "Ferry" ∧
    convert_class_int_to_string 2 = some "Buoy" ∧
    convert_class_int_to_string 3 = some "Vessel/ship" ∧
    convert_class_int_to_string 4 = some "Speed boat" ∧
    convert_class_int_to_string 5 = some "Boat" ∧
    convert_class_int_to_string 6 = some "Kayak" ∧
    convert_class_int_to_string 7 = some "Sail boat" ∧
    convert_class_int_to_string 8 = some "Swimming person" ∧
    convert_class_int_to_string 9 = some "Flying bird/plane" ∧
    convert_class_int_to_string 10 = some "Other" := by
  refine ⟨fun b ib => rfl, ?_, rfl, rfl, rfl, rfl, rfl, rfl, rfl, rfl, rfl, rfl⟩
  intro c
  constructor
  · intro h
    simp only [convert_class_int_to_string, classes_dict, List.lookup] at h
    repeat' split at h
    all_goals simp_all [beq_iff_eq]
  · rintro ⟨h1, h2⟩
    interval_cases c <;> decide

/-- C8: the VOC document is persisted to
`<xml_path>/<image_name without extension>.xml` exactly when both the
stripped image path and the stripped xml path are nonempty; if either is
blank the operation is skipped with a diagnostic instead of failing. -/
theorem c8_save_conditions (f : Frame) :
    (pyStrip f.image_path = "" ∨ pyStrip f.xml_path = "" →
      ∃ d, save_frame_as_xml f = some (SaveResult.skipped d)) ∧
    (pyStrip f.image_path ≠ "" → pyStrip f.xml_path ≠ "" →
      ∀ doc, convert_frame_to_VOC_xml f false = some doc →
        save_frame_as_xml f =
          some (SaveResult.saved
            (joinPath f.xml_path (((pySplit '.' f.image_name).headD "") ++ ".xml")) doc)) ∧
    (∀ p doc, save_frame_as_xml f = some (SaveResult.saved p doc) →
      pyStrip f.image_path ≠ "" ∧ pyStrip f.xml_path ≠ "" ∧
      p = joinPath f.xml_path (((pySplit '.' f.image_name).headD "") ++ ".xml")) := by
  refine ⟨?_, ?_, ?_⟩
  · intro h
    unfold save_frame_as_xml
    rcases h with h | h
    · rw [if_pos h]
      exact ⟨_, rfl⟩
    · by_cases h1 : pyStrip f.image_path = ""
      · rw [if_pos h1]
        exact ⟨_, rfl⟩
      · rw [if_neg h1, if_pos h]
        exact ⟨_, rfl⟩
  · intro h1 h2 doc hdoc
    unfold save_frame_as_xml
    rw [if_neg h1, if_neg h2, hdoc]
  · intro p doc h
    unfold save_frame_as_xml at h
    split at h
    · simp at h
    · split at h
      · simp at h
      · rename_i h1 h2
        split at h
        · exact absurd h (by simp)
        · simp only [Option.some.injEq, SaveResult.saved.injEq] at h
          obtain ⟨hp, _⟩ := h
          exact ⟨h1, h2, hp.symm⟩

/-- C8 witness: a frame with nonblank paths is saved to
`ann/V_frame0.xml` with its generated document. -/
theorem c8_save_conditions_witness :
    save_frame_as_xml frameC8 =
      some (SaveResult.saved
        (joinPath frameC8.xml_path (((pySplit '.' frameC8.image_name).headD "") ++ ".xml"))
        docC8) :=
  (c8_save_conditions frameC8).2.1 (by decide) (by decide) docC8 frameC8_voc_eval

/-- C9: every row in the train bucket comes from an image in the train
membership set and every row in the test bucket from an image in the test
set but not the train set, so an image in neither set contributes to no
bucket; moreover a container none of whose images match either set is
processed without error and contributes empty output. -/
theorem c9_membership_filter :
    (∀ (gtFiles : List (String × Option (List FrameData))) (p1 p2 p3 p4 : String)
       (train test : List String) (ib : Bool) (tr te : List CsvEntry),
      generate_split_dataset_csv_xml gtFiles p1 p2 p3 p4 train test ib = some (tr, te) →
      (∀ e ∈ tr, e.filename ∈ train) ∧
      (∀ e ∈ te, e.filename ∈ test ∧ e.filename ∉ train)) ∧
    (∀ (vid : String) (cont : List FrameData) (p1 p2 p3 p4 : String)
       (train test : List String) (ib : Bool),
      (∀ j, mkImageName vid j ∉ train) → (∀ j, mkImageName vid j ∉ test) →
      generate_split_dataset_csv_xml [(vid, some cont)] p1 p2 p3 p4 train test ib
        = some ([], [])) := by
  constructor
  · intro gtFiles p1 p2 p3 p4 train test ib tr te h
    exact gen_mem h
  · intro vid cont p1 p2 p3 p4 train test ib h1 h2
    simp [generate_split_dataset_csv_xml, processFrames_unmatched h1 h2]

/-- C9 witness: the row of container `B` carries a train-member filename,
and the same container against memberships naming no `B` image yields
empty buckets without error. -/
theorem c9_membership_filter_witness :
    entryC5.filename ∈ ["B_frame0.jpg"] ∧
    generate_split_dataset_csv_xml [("B", some contC5)] "" "" "" "" [] [] false
      = some ([], []) := by
  constructor
  · exact ((c9_membership_filter.1 [("B", some contC5)] "" "" "" ""
      ["B_frame0.jpg"] [] false [entryC5] [] genC5_eval).1 entryC5 (by simp))
  · exact c9_membership_filter.2 "B" contC5 "" "" "" "" [] [] false
      (fun j => by simp) (fun j => by simp)

/-- C10: membership in the train set is tested first and takes precedence:
no test-bucket row can carry a train-member filename, and an image present
in both membership sets has all its rows routed to the train bucket while
the test bucket stays empty. -/
theorem c10_train_precedence :
    (∀ (gtFiles : List (String × Option (List FrameData))) (p1 p2 p3 p4 : String)
       (train test : List String) (ib : Bool) (tr te : List CsvEntry),
      generate_split_dataset_csv_xml gtFiles p1 p2 p3 p4 train test ib = some (tr, te) →
      ∀ e ∈ te, e.filename ∉ train) ∧
    generate_split_dataset_csv_xml [("B", some contC5)] "" "" "" ""
      ["B_frame0.jpg"] ["B_frame0.jpg"] false = some ([entryC5], []) := by
  constructor
  · intro gtFiles p1 p2 p3 p4 train test ib tr te h e he
    exact ((gen_mem h).2 e he).2
  · exact genC5_eval_both

/-- C10 witness: with the `B` image only in the test set, the resulting
test-bucket row is certified not to be a train member. -/
theorem c10_train_precedence_witness :
    entryC5.filename ∉ ["Z"] :=
  (c10_train_precedence.1 [("B", some contC5)] "" "" "" ""
    ["Z"] ["B_frame0.jpg"] false [] [entryC5] genC5_eval_test) entryC5 (by simp)
